import Mathlib

/-!
Verification development for the Tive→PAXAFE webhook integration service.

The service is TypeScript running on a JS runtime, so inbound payloads are
dynamically typed documents.  We shallowly embed the runtime values as `JsVal`
(numbers as exact rationals), and translate each function of the source
(validator, transformers, critical-event classifier, webhook route handler)
into an executable Lean definition.  Code that can raise a runtime `TypeError`
(property access on `null`/`undefined`) is modelled with `Except Unit`.
-/

namespace Tive

/-- A JavaScript runtime value.  Numbers are modelled as exact rationals
(the claims under study only involve values on which IEEE-754 double
arithmetic is exact).  Arrays and functions are not needed by the embedded
code and are omitted. -/
inductive JsVal where
  | null
  | undefined
  | boolV (b : Bool)
  | num (q : ℚ)
  | str (s : String)
  | obj (fields : List (String × JsVal))

/-- Field lookup in an object literal: first binding wins, missing keys give
`undefined` (as in JS). -/
def lookupField : List (String × JsVal) → String → JsVal
  | [], _ => .undefined
  | (k, v) :: rest, key => if k = key then v else lookupField rest key

/-- `v.key` on a receiver that is not `null`/`undefined`: objects look the key
up, primitives have no own properties so the access yields `undefined`. -/
def JsVal.get : JsVal → String → JsVal
  | .obj fs, key => lookupField fs key
  | _, _ => .undefined

/-- Optional chaining `v?.key`: `null`/`undefined` receivers short-circuit to
`undefined` instead of throwing. -/
def JsVal.getOpt : JsVal → String → JsVal
  | .null, _ => .undefined
  | .undefined, _ => .undefined
  | v, key => v.get key

/-- JS truthiness (`NaN` is outside the model; `0`, `""`, `null`,
`undefined`, `false` are falsy). -/
def JsVal.truthy : JsVal → Bool
  | .null => false
  | .undefined => false
  | .boolV b => b
  | .num q => q != 0
  | .str s => s != ""
  | .obj _ => true

/-- `typeof v` (note `typeof null === "object"` in JS). -/
def JsVal.typeof : JsVal → String
  | .null => "object"
  | .undefined => "undefined"
  | .boolV _ => "boolean"
  | .num _ => "number"
  | .str _ => "string"
  | .obj _ => "object"

/-- `v === null || v === undefined`.  In the embedded sources the two
comparisons always occur as this pair. -/
def JsVal.isNullish : JsVal → Bool
  | .null => true
  | .undefined => true
  | _ => false

/-- Numeric view of a value; the sources only apply it to values already
checked to be numbers. -/
def JsVal.asNum : JsVal → ℚ
  | .num q => q
  | _ => 0

/-- String view of a value; the sources only apply it to values already
checked to be strings. -/
def JsVal.asString : JsVal → String
  | .str s => s
  | _ => ""

instance {e a : Type} [DecidableEq e] [DecidableEq a] : DecidableEq (Except e a) := fun x y =>
  match x, y with
  | .error u, .error v => decidable_of_iff (u = v) (by simp)
  | .ok u, .ok v => decidable_of_iff (u = v) (by simp)
  | .error _, .ok _ => isFalse (by simp)
  | .ok _, .error _ => isFalse (by simp)

/-- `typeof v === 'number'` view: the contained rational when `v` is a
number, else `none`. -/
def JsVal.asNumOpt : JsVal → Option ℚ
  | .num q => some q
  | _ => none

/-! ## Validator (`src/lib/validators/tive-validator.ts`, `validateTivePayload`) -/

structure ValidationError where
  field : String
  message : String
deriving Repr, DecidableEq

structure ValidationResult where
  valid : Bool
  errors : List ValidationError
deriving Repr, DecidableEq

/-- `VALIDATION.MAX_TIMESTAMP_OFFSET` (one year in milliseconds). -/
def MAX_TIMESTAMP_OFFSET : ℚ := 365 * 24 * 60 * 60 * 1000

/-- `VALIDATION.TEMP_MIN`. -/
def TEMP_MIN : ℚ := -100

/-- `VALIDATION.TEMP_MAX`. -/
def TEMP_MAX : ℚ := 100

/-- `VALIDATION.HUMIDITY_MIN`. -/
def HUMIDITY_MIN : ℚ := 0

/-- `VALIDATION.HUMIDITY_MAX`. -/
def HUMIDITY_MAX : ℚ := 100

/-- `/^[0-9]{15}$/.test s`. -/
def deviceIdFormatOk (s : String) : Bool :=
  s.length == 15 && s.data.all Char.isDigit

/-- The `DeviceId` checks of `validateTivePayload` (argument is
`payload.DeviceId`). -/
def deviceIdErrors (v : JsVal) : List ValidationError :=
  if !v.truthy then
    [⟨"DeviceId", "DeviceId is required"⟩]
  else if v.typeof != "string" then
    [⟨"DeviceId", "DeviceId must be a string"⟩]
  else if !deviceIdFormatOk v.asString then
    [⟨"DeviceId", "DeviceId must be exactly 15 digits"⟩]
  else []

/-- The `DeviceName` checks. -/
def deviceNameErrors (v : JsVal) : List ValidationError :=
  if !v.truthy then
    [⟨"DeviceName", "DeviceName is required"⟩]
  else if v.typeof != "string" then
    [⟨"DeviceName", "DeviceName must be a string"⟩]
  else []

/-- The `EntryTimeEpoch` checks; `now` is `Date.now()`. -/
def entryTimeErrors (now : ℚ) (v : JsVal) : List ValidationError :=
  if !v.truthy then
    [⟨"EntryTimeEpoch", "EntryTimeEpoch is required"⟩]
  else if v.typeof != "number" then
    [⟨"EntryTimeEpoch", "EntryTimeEpoch must be a number"⟩]
  else
    let timestamp := v.asNum
    let oneYearAgo := now - MAX_TIMESTAMP_OFFSET
    let oneYearFromNow := now + MAX_TIMESTAMP_OFFSET
    if timestamp < 0 then
      [⟨"EntryTimeEpoch", "Timestamp cannot be negative"⟩]
    else if timestamp < oneYearAgo then
      [⟨"EntryTimeEpoch", "Timestamp is too far in the past (more than 1 year)"⟩]
    else if timestamp > oneYearFromNow then
      [⟨"EntryTimeEpoch", "Timestamp is in the future (more than 1 year ahead)"⟩]
    else []

/-- The `Temperature` checks (argument is `payload.Temperature`). -/
def temperatureErrors (v : JsVal) : List ValidationError :=
  if !v.truthy then
    [⟨"Temperature", "Temperature is required"⟩]
  else if v.typeof != "object" then
    [⟨"Temperature", "Temperature must be an object"⟩]
  else
    let c := v.get "Celsius"
    if c.isNullish then
      [⟨"Temperature.Celsius", "Temperature.Celsius is required"⟩]
    else if c.typeof != "number" then
      [⟨"Temperature.Celsius", "Temperature.Celsius must be a number"⟩]
    else if c.asNum < TEMP_MIN ∨ c.asNum > TEMP_MAX then
      [⟨"Temperature.Celsius", "Temperature.Celsius is outside reasonable range (-100 to 100)"⟩]
    else []

/-- The `Location` checks (argument is `payload.Location`). -/
def locationErrors (v : JsVal) : List ValidationError :=
  if !v.truthy then
    [⟨"Location", "Location is required"⟩]
  else if v.typeof != "object" then
    [⟨"Location", "Location must be an object"⟩]
  else
    let lat := v.get "Latitude"
    let lon := v.get "Longitude"
    (if lat.isNullish then
      [⟨"Location.Latitude", "Location.Latitude is required"⟩]
    else if lat.typeof != "number" then
      [⟨"Location.Latitude", "Location.Latitude must be a number"⟩]
    else if lat.asNum < -90 ∨ lat.asNum > 90 then
      [⟨"Location.Latitude", "Latitude must be between -90 and 90"⟩]
    else []) ++
    (if lon.isNullish then
      [⟨"Location.Longitude", "Location.Longitude is required"⟩]
    else if lon.typeof != "number" then
      [⟨"Location.Longitude", "Location.Longitude must be a number"⟩]
    else if lon.asNum < -180 ∨ lon.asNum > 180 then
      [⟨"Location.Longitude", "Longitude must be between -180 and 180"⟩]
    else [])

/-- The optional `Humidity?.Percentage` checks (argument is the whole
payload, mirroring the optional chaining in the source). -/
def humidityErrors (payload : JsVal) : List ValidationError :=
  let p := (payload.get "Humidity").getOpt "Percentage"
  if !p.isNullish then
    if p.typeof != "number" then
      [⟨"Humidity.Percentage", "Humidity.Percentage must be a number"⟩]
    else if p.asNum < HUMIDITY_MIN ∨ p.asNum > HUMIDITY_MAX then
      [⟨"Humidity.Percentage", "Humidity.Percentage must be between 0 and 100"⟩]
    else []
  else []

/-- The optional `Battery?.Percentage` checks. -/
def batteryErrors (payload : JsVal) : List ValidationError :=
  let p := (payload.get "Battery").getOpt "Percentage"
  if !p.isNullish then
    if p.typeof != "number" then
      [⟨"Battery.Percentage", "Battery.Percentage must be a number"⟩]
    else if p.asNum < 0 ∨ p.asNum > 100 then
      [⟨"Battery.Percentage", "Battery.Percentage must be between 0 and 100"⟩]
    else []
  else []

/-- The optional `Cellular?.Dbm` checks. -/
def cellularErrors (payload : JsVal) : List ValidationError :=
  let p := (payload.get "Cellular").getOpt "Dbm"
  if !p.isNullish then
    if p.typeof != "number" then
      [⟨"Cellular.Dbm", "Cellular.Dbm must be a number"⟩]
    else if p.asNum < -150 ∨ p.asNum > -50 then
      [⟨"Cellular.Dbm", "Cellular.Dbm must be between -150 and -50"⟩]
    else []
  else []

/-- `validateTivePayload(payload)`.  The function's first statement reads
`payload.DeviceId`, which raises a `TypeError` when `payload` is `null` or
`undefined`; that is the only way the function can throw (every other access
is either on `payload` itself, guarded by a truthiness+`typeof` check, or
optional-chained), so the `Except` error case is exactly `payload` being
nullish.  Errors are collected in source order and
`valid := errors.length === 0`. -/
def validateTivePayload (now : ℚ) (payload : JsVal) : Except Unit ValidationResult :=
  if payload.isNullish then .error ()
  else
    let errors :=
      deviceIdErrors (payload.get "DeviceId") ++
      deviceNameErrors (payload.get "DeviceName") ++
      entryTimeErrors now (payload.get "EntryTimeEpoch") ++
      temperatureErrors (payload.get "Temperature") ++
      locationErrors (payload.get "Location") ++
      humidityErrors payload ++
      batteryErrors payload ++
      cellularErrors payload
    .ok { valid := errors.length == 0, errors := errors }

/-! ## Transformer (`src/lib/transformers/tive-to-paxafe.ts`) -/

/-- JS `Math.round`: nearest integer, ties toward `+∞` (so `Math.round(-562.5)
= -562`). -/
def jsMathRound (q : ℚ) : ℤ := ⌊q + 1/2⌋

/-- `s.split(',')` — single-character separator, JS semantics (keeps empty
segments, a trailing separator yields a trailing empty segment). -/
def splitCommaChars : List Char → List Char → List String
  | acc, [] => [String.mk acc.reverse]
  | acc, c :: rest =>
    if c = ',' then String.mk acc.reverse :: splitCommaChars [] rest
    else splitCommaChars (c :: acc) rest

def jsSplitComma (s : String) : List String := splitCommaChars [] s.data

/-- `p.trim()`: strip whitespace from both ends. -/
def jsTrim (s : String) : String :=
  String.mk (((s.data.dropWhile Char.isWhitespace).reverse.dropWhile
    Char.isWhitespace).reverse)

/-- `s.toLowerCase()` (ASCII suffices for the embedded code). -/
def jsToLower (s : String) : String := String.mk (s.data.map Char.toLower)

/-- `Math.round(q * scale) / scale`, the fixed-precision rounding idiom used
throughout the transformer (`scale` is `10^decimals`). -/
def roundToScale (scale : ℚ) (q : ℚ) : ℚ := (jsMathRound (q * scale) : ℚ) / scale

/-- `v !== null && v !== undefined ? Math.round(v * scale) / scale : null`. -/
def roundedNumField (scale : ℚ) (v : JsVal) : Option ℚ :=
  if !v.isNullish then some (roundToScale scale v.asNum) else none

/-- `normalizeTimestamp`: epochs below `1e12` are taken to be seconds and
scaled to milliseconds. -/
def normalizeTimestamp (epoch : ℚ) : ℚ :=
  if epoch < 1000000000000 then epoch * 1000 else epoch

structure AccelerometerOut where
  x : Option ℚ
  y : Option ℚ
  z : Option ℚ
  magnitude : Option ℚ
deriving Repr, DecidableEq

structure PaxafeSensorPayload where
  device_id : JsVal
  device_imei : JsVal
  timestamp : ℚ
  provider : String
  type : String
  temperature : Option ℚ
  humidity : Option ℚ
  light_level : Option ℚ
  accelerometer : Option AccelerometerOut
  tilt : Option ℚ
  box_open : Option Bool

/-- `transformToSensorPayload(tive)`.  Top-level property reads throw iff
`tive` itself is nullish; all optional sensors are guarded exactly as in the
source. -/
def transformToSensorPayload (tive : JsVal) : Except Unit PaxafeSensorPayload :=
  if tive.isNullish then .error ()
  else
    let temperature := roundedNumField 100 ((tive.get "Temperature").getOpt "Celsius")
    let humidity := roundedNumField 10 ((tive.get "Humidity").getOpt "Percentage")
    let lightLevel := roundedNumField 10 ((tive.get "Light").getOpt "Lux")
    let accelerometer : Option AccelerometerOut :=
      if (tive.get "Accelerometer").truthy then
        let a := tive.get "Accelerometer"
        some { x := roundedNumField 1000 (a.get "X"),
               y := roundedNumField 1000 (a.get "Y"),
               z := roundedNumField 1000 (a.get "Z"),
               magnitude := roundedNumField 1000 (a.get "G") }
      else none
    .ok { device_id := tive.get "DeviceName",
          device_imei := tive.get "DeviceId",
          timestamp := normalizeTimestamp (tive.get "EntryTimeEpoch").asNum,
          provider := "Tive",
          type := "Active",
          temperature := temperature,
          humidity := humidity,
          light_level := lightLevel,
          accelerometer := accelerometer,
          tilt := none,
          box_open := none }

structure AddressOut where
  street : Option String
  locality : Option String
  state : Option String
  country : Option String
  postal_code : Option String
  full_address : Option String
deriving Repr, DecidableEq

/-- `s || null` on a (possibly empty) string. -/
def strOrNone (s : String) : Option String := if s = "" then none else some s

/-- Take exactly `n` digits off the front of a character list. -/
def takeDigits : ℕ → List Char → Option (List Char × List Char)
  | 0, rest => some ([], rest)
  | _ + 1, [] => none
  | n + 1, c :: rest =>
    if c.isDigit then (takeDigits n rest).map (fun p => (c :: p.1, p.2)) else none

/-- Match the regex `\d{5}(?:-\d{4})?` at the head of the list, greedily
(returns the matched characters and the remaining suffix). -/
def matchZipAt (cs : List Char) : Option (List Char × List Char) :=
  match takeDigits 5 cs with
  | none => none
  | some (d5, rest) =>
    match rest with
    | '-' :: rest2 =>
      match takeDigits 4 rest2 with
      | some (d4, rest3) => some (d5 ++ '-' :: d4, rest3)
      | none => some (d5, rest)
    | _ => some (d5, rest)

def isUpperAZ (c : Char) : Bool := 'A' ≤ c && c ≤ 'Z'

/-- `thirdPart.match(/^([A-Z]{2})\s+(\d{5}(?:-\d{4})?)$/)`, returning the two
capture groups. -/
def matchStateZip (s : String) : Option (String × String) :=
  match s.data with
  | c₁ :: c₂ :: rest =>
    if isUpperAZ c₁ && isUpperAZ c₂ then
      let afterWs := rest.dropWhile Char.isWhitespace
      if afterWs.length < rest.length then
        match matchZipAt afterWs with
        | some (zip, []) => some (String.mk [c₁, c₂], String.mk zip)
        | _ => none
      else none
    else none
  | _ => none

/-- `thirdPart.match(/^[A-Z]{2}$/)`. -/
def matchStateOnly (s : String) : Bool :=
  match s.data with
  | [c₁, c₂] => isUpperAZ c₁ && isUpperAZ c₂
  | _ => false

/-- `thirdPart.match(/^(\d{5}(?:-\d{4})?)$/)`. -/
def matchZipOnly (s : String) : Bool :=
  match matchZipAt s.data with
  | some (_, []) => true
  | _ => false

/-- Leftmost match of `/(\d{5}(?:-\d{4})?)/` in the list, returning
(match, characters before it, characters after it). -/
def searchZipGo : List Char → List Char → Option (String × String × String)
  | _, [] => none
  | revPre, c :: rest =>
    match matchZipAt (c :: rest) with
    | some (m, suf) => some (String.mk m, String.mk revPre.reverse, String.mk suf)
    | none => searchZipGo (c :: revPre) rest

/-- `lastPart.match(/(\d{5}(?:-\d{4})?)/)` together with the split needed for
the subsequent `replace(zipMatch[0], '')` (the first plain-string occurrence
of the match coincides with the regex's leftmost match, since the match
starts with five digits). -/
def searchZip (s : String) : Option (String × String × String) :=
  searchZipGo [] s.data

/-- The string-manipulating body of `parseAddress` once the input is known to
be a non-empty string. -/
def parseAddressStr (formattedAddress : String) : AddressOut :=
  let parts := (jsSplitComma formattedAddress).map jsTrim
  let street := if parts.length ≥ 1 then strOrNone (parts.getD 0 "") else none
  let locality := if parts.length ≥ 2 then strOrNone (parts.getD 1 "") else none
  let stPc :=
    if parts.length ≥ 3 then
      let thirdPart := parts.getD 2 ""
      match matchStateZip thirdPart with
      | some (st, zip) => (strOrNone st, strOrNone zip)
      | none =>
        if matchStateOnly thirdPart then (some thirdPart, none)
        else if matchZipOnly thirdPart then ((none : Option String), some thirdPart)
        else (none, none)
    else (none, none)
  let state := stPc.1
  let postal₀ := stPc.2
  let coPc :=
    if parts.length ≥ 4 then
      let country₀ := strOrNone (parts.getD (parts.length - 1) "")
      if postal₀.isNone ∧ parts.length = 4 then
        let lastPart := parts.getD 3 ""
        match searchZip lastPart with
        | some (m, pre, suf) => (strOrNone (jsTrim (pre ++ suf)), some m)
        | none => (country₀, postal₀)
      else (country₀, postal₀)
    else ((none : Option String), postal₀)
  { street := street, locality := locality, state := state,
    country := coPc.1, postal_code := coPc.2,
    full_address := some formattedAddress }

/-- `parseAddress(formattedAddress)` with its JS signature
`string | null | undefined`: falsy inputs (including `""`) yield the all-null
record; a truthy non-string would make `.split` throw. -/
def parseAddress (formattedAddress : JsVal) : Except Unit AddressOut :=
  if !formattedAddress.truthy then
    .ok { street := none, locality := none, state := none, country := none,
          postal_code := none, full_address := none }
  else match formattedAddress with
    | .str s => .ok (parseAddressStr s)
    | _ => .error ()

/-- `method.charAt(0).toUpperCase() + method.slice(1)`. -/
def capitalizeFirst (s : String) : String :=
  match s.data with
  | [] => ""
  | c :: rest => String.mk (c.toUpper :: rest)

structure PaxafeLocationPayload where
  device_id : JsVal
  device_imei : JsVal
  timestamp : ℚ
  provider : String
  type : String
  latitude : JsVal
  longitude : JsVal
  altitude : Option ℚ
  location_accuracy : Option ℤ
  location_accuracy_category : Option String
  location_source : Option String
  address : AddressOut
  battery_level : JsVal
  cellular_dbm : Option ℚ
  cellular_network_type : Option String
  cellular_operator : Option String
  wifi_access_points : JsVal

/-- `x ?? null`: `undefined` collapses to `null`, everything else passes
through. -/
def nullCoalesce (v : JsVal) : JsVal :=
  match v with
  | .undefined => .null
  | .null => .null
  | v => v

/-- `transformToLocationPayload(tive)`.  Throws iff `tive` or
`tive.Location` is nullish, or `tive.Location.LocationMethod` is a truthy
non-string (then `.toLowerCase()` would throw); the remaining accesses are
guarded or optional-chained as in the source. -/
def transformToLocationPayload (tive : JsVal) : Except Unit PaxafeLocationPayload :=
  if tive.isNullish then .error ()
  else
    let loc := tive.get "Location"
    if loc.isNullish then .error ()
    else
      let lmv := loc.get "LocationMethod"
      if lmv.truthy ∧ lmv.typeof ≠ "string" then .error ()
      else
        let locationSource : Option String :=
          if lmv.truthy then
            let method := jsToLower lmv.asString
            if method = "wifi" then some "WiFi"
            else if method = "gps" then some "GPS"
            else some (capitalizeFirst method)
          else none
        let accuracyMeters := (loc.get "Accuracy").getOpt "Meters"
        let accuracyCategory : Option String :=
          if !accuracyMeters.isNullish then
            if accuracyMeters.asNum ≤ 10 then some "High"
            else if accuracyMeters.asNum ≤ 100 then some "Medium"
            else some "Low"
          else none
        match parseAddress (loc.get "FormattedAddress") with
        | .error _ => .error ()
        | .ok address =>
          let cellularDbm := roundedNumField 100 ((tive.get "Cellular").getOpt "Dbm")
          .ok { device_id := tive.get "DeviceName",
                device_imei := tive.get "DeviceId",
                timestamp := normalizeTimestamp (tive.get "EntryTimeEpoch").asNum,
                provider := "Tive",
                type := "Active",
                latitude := loc.get "Latitude",
                longitude := loc.get "Longitude",
                altitude := none,
                location_accuracy :=
                  if accuracyMeters.truthy then some (jsMathRound accuracyMeters.asNum)
                  else none,
                location_accuracy_category := accuracyCategory,
                location_source := locationSource,
                address := address,
                battery_level := nullCoalesce ((tive.get "Battery").getOpt "Percentage"),
                cellular_dbm := cellularDbm,
                cellular_network_type := none,
                cellular_operator := none,
                wifi_access_points := nullCoalesce ((loc.get "WifiAccessPointUsedCount")) }

/-! ## Critical-event classifier
(`src/lib/utils/critical-detector.ts`, `isCriticalEvent`) -/

/-- `OPERATIONAL_RANGES` from `src/lib/constants.ts`. -/
def OP_TEMP_MIN : ℚ := -20
def OP_TEMP_MAX : ℚ := 30
def OP_HUMIDITY_MIN : ℚ := 20
def OP_HUMIDITY_MAX : ℚ := 80
def OP_BATTERY_MIN : ℚ := 20
def OP_CELLULAR_DBM_MIN : ℚ := -120
def OP_ACCEL_MAGNITUDE_MAX : ℚ := 2

/-- One entry of the classifier's `reasons` array.  The source pushes
human-readable strings interpolating the offending value; we keep the value
and abstract the surrounding text (for the axes case the squared magnitude is
carried, since the displayed `Math.sqrt` is irrational in general). -/
inductive CriticalReason where
  | temperatureTooLow (t : ℚ)
  | temperatureTooHigh (t : ℚ)
  | humidityTooLow (h : ℚ)
  | humidityTooHigh (h : ℚ)
  | lowBattery (b : ℚ)
  | poorCellularSignal (d : ℚ)
  | highMovementAxes (magnitudeSq : ℚ)
  | highMovementScalar (g : ℚ)
deriving Repr, DecidableEq

structure CriticalEventResult where
  isCritical : Bool
  reasons : List CriticalReason
deriving Repr, DecidableEq

/-- Temperature branch of `isCriticalEvent` (guard
`payload.Temperature?.Celsius !== null && !== undefined`). -/
def tempReasons (payload : JsVal) : List CriticalReason :=
  let c := (payload.get "Temperature").getOpt "Celsius"
  if !c.isNullish then
    let temp := c.asNum
    if temp < OP_TEMP_MIN then [.temperatureTooLow temp]
    else if temp > OP_TEMP_MAX then [.temperatureTooHigh temp]
    else []
  else []

/-- Humidity branch. -/
def humidityReasons (payload : JsVal) : List CriticalReason :=
  let c := (payload.get "Humidity").getOpt "Percentage"
  if !c.isNullish then
    let h := c.asNum
    if h < OP_HUMIDITY_MIN then [.humidityTooLow h]
    else if h > OP_HUMIDITY_MAX then [.humidityTooHigh h]
    else []
  else []

/-- Battery branch. -/
def batteryReasons (payload : JsVal) : List CriticalReason :=
  let c := (payload.get "Battery").getOpt "Percentage"
  if !c.isNullish then
    let b := c.asNum
    if b < OP_BATTERY_MIN then [.lowBattery b] else []
  else []

/-- Cellular-signal branch. -/
def cellularReasons (payload : JsVal) : List CriticalReason :=
  let c := (payload.get "Cellular").getOpt "Dbm"
  if !c.isNullish then
    let d := c.asNum
    if d < OP_CELLULAR_DBM_MIN then [.poorCellularSignal d] else []
  else []

/-- Accelerometer branch.  The source computes
`Math.sqrt(x² + y² + z²) > 2.0`; since both sides are nonnegative this is
equivalent to `x² + y² + z² > 4`, which is how the executable definition
decides it (the equivalence with the `Real.sqrt` form is proved in
`sqrt_magnitude_gt_two_iff` below). -/
def accelReasons (payload : JsVal) : List CriticalReason :=
  let accel := payload.get "Accelerometer"
  if accel.truthy then
    match (accel.get "X").asNumOpt, (accel.get "Y").asNumOpt,
          (accel.get "Z").asNumOpt with
    | some x, some y, some z =>
      if x ^ 2 + y ^ 2 + z ^ 2 > OP_ACCEL_MAGNITUDE_MAX ^ 2 then
        [.highMovementAxes (x ^ 2 + y ^ 2 + z ^ 2)]
      else []
    | _, _, _ =>
      match (accel.get "G").asNumOpt with
      | some g => if g > OP_ACCEL_MAGNITUDE_MAX then [.highMovementScalar g] else []
      | _ => []
  else []

/-- `isCriticalEvent(payload)`: throws iff `payload` is nullish (the first
statement reads `payload.Temperature`); otherwise collects reasons in source
order and sets `isCritical := reasons.length > 0`. -/
def isCriticalEvent (payload : JsVal) : Except Unit CriticalEventResult :=
  if payload.isNullish then .error ()
  else
    let reasons :=
      tempReasons payload ++ humidityReasons payload ++ batteryReasons payload ++
      cellularReasons payload ++ accelReasons payload
    .ok { isCritical := decide (reasons.length > 0), reasons := reasons }

/-! ## Webhook route (`src/app/api/webhook/tive/route.ts`, `POST`) -/

/-- Remove the first occurrence of `pat` from the head-most position of a
character list, returning the pieces around it. -/
def removeFirstAux (pat : List Char) : List Char → Option (List Char × List Char)
  | [] => if pat = [] then some ([], []) else none
  | c :: cs =>
    if pat.isPrefixOf (c :: cs) then some ([], (c :: cs).drop pat.length)
    else (removeFirstAux pat cs).map (fun p => (c :: p.1, p.2))

/-- `s.replace(pat, '')` with a plain-string pattern: removes the first
occurrence, or returns `s` unchanged when there is none. -/
def replaceFirstEmpty (s pat : String) : String :=
  match removeFirstAux pat.data s.data with
  | some (pre, suf) => String.mk (pre ++ suf)
  | none => s

/-- `a || b` restricted to strings-or-absent: a present non-empty string wins,
otherwise the right operand is returned as-is. -/
def jsOrStr (a b : Option String) : Option String :=
  match a with
  | some s => if s ≠ "" then some s else b
  | none => b

/-- The inbound HTTP request as the route sees it: the two auth headers and
the already-read body (`.error` = malformed JSON). -/
structure WebhookRequest where
  xApiKey : Option String
  authorization : Option String
  body : Except Unit JsVal

/-- `validateApiKey`'s header extraction:
`x-api-key || authorization?.replace('Bearer ', '') ||
authorization?.replace('bearer ', '')`. -/
def requestApiKey (req : WebhookRequest) : Option String :=
  jsOrStr req.xApiKey
    (jsOrStr (req.authorization.map (fun a => replaceFirstEmpty a "Bearer "))
      (req.authorization.map (fun a => replaceFirstEmpty a "bearer ")))

/-- `validateApiKey(request)`: fails when `process.env.API_KEY` is unset or
empty, otherwise strict equality of extracted and expected key. -/
def validateApiKey (expectedApiKey : Option String) (req : WebhookRequest) : Bool :=
  match expectedApiKey with
  | none => false
  | some exp => if exp = "" then false else requestApiKey req == some exp

inductive RawStatus where
  | pending
  | processing
  | completed
  | failed
deriving Repr, DecidableEq

/-- A `raw_webhook_payloads` row as written by `storeRawPayload`. -/
structure RawRow where
  id : ℕ
  payload : JsVal
  source : String
  status : RawStatus
  validationErrors : Option (List ValidationError)
  inngestEventId : Option String

/-- A `device_latest` row as written by `updateDeviceLatest` (variant with a
full critical-field snapshot; columns in source order). -/
structure DeviceLatestRow where
  device_imei : JsVal
  device_id : JsVal
  provider : String
  last_ts : ℚ
  last_temperature : Option ℚ
  last_humidity : Option ℚ
  last_light_level : Option ℚ
  last_accelerometer_x : Option ℚ
  last_accelerometer_y : Option ℚ
  last_accelerometer_z : Option ℚ
  last_accelerometer_magnitude : Option ℚ
  last_lat : JsVal
  last_lon : JsVal
  altitude : Option ℚ
  location_accuracy : Option ℤ
  location_accuracy_category : Option String
  location_source : Option String
  address_street : Option String
  address_locality : Option String
  address_state : Option String
  address_country : Option String
  address_postal_code : Option String
  address_full_address : Option String
  battery_level : JsVal
  cellular_dbm : Option ℚ
  cellular_network_type : Option String
  cellular_operator : Option String
  wifi_access_points : JsVal

/-- A `payload_order_tracking` row: device imei, last timestamp,
out-of-order count. -/
structure OrderRow where
  device_imei : JsVal
  last_timestamp : ℚ
  out_of_order_count : ℕ

/-- The stored state the hot path touches: the audit log (with its id
sequence), the latest-state projection and the order-tracking table. -/
structure Db where
  rawPayloads : List RawRow
  nextRawId : ℕ
  deviceLatest : List DeviceLatestRow
  orderTracking : List OrderRow

/-- `storeRawPayload(payload, validationErrors, status, inngestEventId)`:
always an `INSERT ... RETURNING id` — it never updates an existing row. -/
def storeRawPayload (db : Db) (payload : JsVal)
    (validationErrors : Option (List ValidationError)) (status : RawStatus)
    (inngestEventId : Option String) : Db × ℕ :=
  ({ db with
      rawPayloads := db.rawPayloads ++
        [{ id := db.nextRawId, payload := payload, source := "Tive",
           status := status, validationErrors := validationErrors,
           inngestEventId := inngestEventId }],
      nextRawId := db.nextRawId + 1 },
   db.nextRawId)

/-- Row constructed by `updateDeviceLatest(deviceImei, deviceId, timestamp,
sensorPayload, locationPayload)`. -/
def deviceLatestRowOf (deviceImei deviceId : JsVal) (timestamp : ℚ)
    (s : PaxafeSensorPayload) (l : PaxafeLocationPayload) : DeviceLatestRow :=
  { device_imei := deviceImei,
    device_id := deviceId,
    provider := s.provider,
    last_ts := timestamp,
    last_temperature := s.temperature,
    last_humidity := s.humidity,
    last_light_level := s.light_level,
    last_accelerometer_x := (s.accelerometer.map AccelerometerOut.x).getD none,
    last_accelerometer_y := (s.accelerometer.map AccelerometerOut.y).getD none,
    last_accelerometer_z := (s.accelerometer.map AccelerometerOut.z).getD none,
    last_accelerometer_magnitude :=
      (s.accelerometer.map AccelerometerOut.magnitude).getD none,
    last_lat := l.latitude,
    last_lon := l.longitude,
    altitude := l.altitude,
    location_accuracy := l.location_accuracy,
    location_accuracy_category := l.location_accuracy_category,
    location_source := l.location_source,
    address_street := l.address.street,
    address_locality := l.address.locality,
    address_state := l.address.state,
    address_country := l.address.country,
    address_postal_code := l.address.postal_code,
    address_full_address := l.address.full_address,
    battery_level := l.battery_level,
    cellular_dbm := l.cellular_dbm,
    cellular_network_type := l.cellular_network_type,
    cellular_operator := l.cellular_operator,
    wifi_access_points := l.wifi_access_points }

/-- Structural equality of `JsVal`, used as the upsert key comparison on
`device_imei` (the stored imei values are strings in practice). -/
def jsValEq : JsVal → JsVal → Bool
  | .null, .null => true
  | .undefined, .undefined => true
  | .boolV a, .boolV b => a == b
  | .num a, .num b => a == b
  | .str a, .str b => a == b
  | .obj a, .obj b => jsObjEq a b
  | _, _ => false
where jsObjEq : List (String × JsVal) → List (String × JsVal) → Bool
  | [], [] => true
  | (k₁, v₁) :: r₁, (k₂, v₂) :: r₂ => k₁ == k₂ && jsValEq v₁ v₂ && jsObjEq r₁ r₂
  | _, _ => false

/-- `INSERT ... ON CONFLICT (device_imei) DO UPDATE`: replace the row with
the same imei, else append. -/
def upsertDeviceLatest (rows : List DeviceLatestRow) (row : DeviceLatestRow) :
    List DeviceLatestRow :=
  if rows.any (fun r => jsValEq r.device_imei row.device_imei) then
    rows.map (fun r => if jsValEq r.device_imei row.device_imei then row else r)
  else rows ++ [row]

/-- `checkAndUpdatePayloadOrder(deviceImei, timestamp)`: first payload for a
device inserts a tracking row and reports in-order; otherwise the payload is
out of order iff the stored timestamp is truthy and larger, incrementing the
counter, else the stored timestamp advances. -/
def checkAndUpdatePayloadOrder (db : Db) (deviceImei : JsVal) (timestamp : ℚ) :
    Bool × Db :=
  match db.orderTracking.find? (fun r => jsValEq r.device_imei deviceImei) with
  | none =>
    (false,
     { db with orderTracking := db.orderTracking ++
        [{ device_imei := deviceImei, last_timestamp := timestamp,
           out_of_order_count := 0 }] })
  | some r =>
    let isOutOfOrder := r.last_timestamp != 0 && timestamp < r.last_timestamp
    if isOutOfOrder then
      (true,
       { db with orderTracking := db.orderTracking.map (fun t =>
          if jsValEq t.device_imei deviceImei then
            { t with out_of_order_count := t.out_of_order_count + 1 }
          else t) })
    else
      (false,
       { db with orderTracking := db.orderTracking.map (fun t =>
          if jsValEq t.device_imei deviceImei then
            { t with last_timestamp := timestamp }
          else t) })

/-- Outcomes of the fallible external calls made during one request, fixed up
front: whether each best-effort store succeeds, whether the order check
succeeds, whether the latest-state upsert commits, and the dispatcher's
answer (`.ok ids` or rejection). -/
structure Effects where
  storeInvalidOk : Bool
  storePendingOk : Bool
  orderCheckOk : Bool
  updateLatestOk : Bool
  inngestSend : Except Unit (List String)
  storeEventIdOk : Bool
  storeFailedOk : Bool

structure HttpResponse where
  status : ℕ
  error : Option String
  payload_id : Option ℕ
deriving Repr, DecidableEq

/-- The `POST` handler of `src/app/api/webhook/tive/route.ts` as a state
machine over the stored state.  Step numbering follows the source comments:
auth (401), JSON parse (400), validation (400 + best-effort failed audit
row), mandatory pending audit row (503 on failure), best-effort order check,
best-effort transform + latest-state snapshot, dispatch (503 + best-effort
"failed" store on rejection, fire-and-forget event-id store on success),
200.  A nullish body makes `validateTivePayload` throw, which the catch-all
turns into a 500. -/
def POST (expectedApiKey : Option String) (now : ℚ) (eff : Effects)
    (req : WebhookRequest) (db : Db) : HttpResponse × Db :=
  if !validateApiKey expectedApiKey req then
    ({ status := 401, error := some "Unauthorized", payload_id := none }, db)
  else
    match req.body with
    | .error _ =>
      ({ status := 400, error := some "Invalid JSON", payload_id := none }, db)
    | .ok body =>
      match validateTivePayload now body with
      | .error _ =>
        ({ status := 500, error := some "Internal server error",
           payload_id := none }, db)
      | .ok validation =>
        if !validation.valid then
          let stored :=
            if eff.storeInvalidOk then
              let (db', pid) :=
                storeRawPayload db body (some validation.errors) .failed none
              (db', some pid)
            else (db, none)
          ({ status := 400, error := some "Validation failed",
             payload_id := stored.2 }, stored.1)
        else if !eff.storePendingOk then
          ({ status := 503, error := some "Database error", payload_id := none }, db)
        else
          let (db₁, pid) := storeRawPayload db body none .pending none
          let afterOrder :=
            if eff.orderCheckOk then
              checkAndUpdatePayloadOrder db₁ (body.get "DeviceId")
                (body.get "EntryTimeEpoch").asNum
            else (false, db₁)
          let db₂ := afterOrder.2
          let db₃ :=
            match transformToSensorPayload body, transformToLocationPayload body with
            | .ok s, .ok l =>
              if eff.updateLatestOk then
                let row := deviceLatestRowOf s.device_imei s.device_id
                  (body.get "EntryTimeEpoch").asNum s l
                { db₂ with deviceLatest := upsertDeviceLatest db₂.deviceLatest row }
              else db₂
            | _, _ => db₂
          match eff.inngestSend with
          | .error _ =>
            let db₄ :=
              if eff.storeFailedOk then
                (storeRawPayload db₃ body none .failed none).1
              else db₃
            ({ status := 503, error := some "Processing error",
               payload_id := some pid }, db₄)
          | .ok ids =>
            let db₄ :=
              match ids with
              | [] => db₃
              | eid :: _ =>
                if eff.storeEventIdOk then
                  (storeRawPayload db₃ body none .pending (some eid)).1
                else db₃
            ({ status := 200, error := none, payload_id := some pid }, db₄)

/-! ## Spec-side predicates for the critical-event claim -/

/-- The temperature value the classifier monitors, when present (the guard in
the source is `payload.Temperature?.Celsius !== null && !== undefined`). -/
def monitoredTemp (p : JsVal) : Option ℚ :=
  let c := (p.get "Temperature").getOpt "Celsius"
  if c.isNullish then none else some c.asNum

/-- The humidity value the classifier monitors, when present. -/
def monitoredHumidity (p : JsVal) : Option ℚ :=
  let c := (p.get "Humidity").getOpt "Percentage"
  if c.isNullish then none else some c.asNum

/-- The battery value the classifier monitors, when present. -/
def monitoredBattery (p : JsVal) : Option ℚ :=
  let c := (p.get "Battery").getOpt "Percentage"
  if c.isNullish then none else some c.asNum

/-- The cellular-signal value the classifier monitors, when present. -/
def monitoredCellular (p : JsVal) : Option ℚ :=
  let c := (p.get "Cellular").getOpt "Dbm"
  if c.isNullish then none else some c.asNum

/-- The three accelerometer axes when all are numbers
(`typeof === 'number'`). -/
def accelAxes (p : JsVal) : Option (ℚ × ℚ × ℚ) :=
  match ((p.get "Accelerometer").get "X").asNumOpt,
        ((p.get "Accelerometer").get "Y").asNumOpt,
        ((p.get "Accelerometer").get "Z").asNumOpt with
  | some x, some y, some z => some (x, y, z)
  | _, _, _ => none

/-- The device-reported scalar magnitude `G`, when it is a number. -/
def accelScalarG (p : JsVal) : Option ℚ :=
  ((p.get "Accelerometer").get "G").asNumOpt

/-- The claim's statement of criticality: some present monitored value lies
outside its fixed operating range; the accelerometer contributes via the
Euclidean norm of the three axes when all are numeric, else via the scalar
`G`.  (Stated with `Real.sqrt`, as the source computes `Math.sqrt`.) -/
def criticalSpec (p : JsVal) : Prop :=
  (∃ t, monitoredTemp p = some t ∧ (t < OP_TEMP_MIN ∨ OP_TEMP_MAX < t)) ∨
  (∃ h, monitoredHumidity p = some h ∧ (h < OP_HUMIDITY_MIN ∨ OP_HUMIDITY_MAX < h)) ∨
  (∃ b, monitoredBattery p = some b ∧ b < OP_BATTERY_MIN) ∨
  (∃ d, monitoredCellular p = some d ∧ d < OP_CELLULAR_DBM_MIN) ∨
  ((p.get "Accelerometer").truthy = true ∧
    ((∃ x y z : ℚ, accelAxes p = some (x, y, z) ∧
        (2 : ℝ) < Real.sqrt ((x : ℝ) ^ 2 + (y : ℝ) ^ 2 + (z : ℝ) ^ 2)) ∨
     (accelAxes p = none ∧ ∃ g, accelScalarG p = some g ∧ OP_ACCEL_MAGNITUDE_MAX < g)))

/-- Wrapper stating that a validator outcome reports an error on a given
field. -/
def hasFieldError (res : Except Unit ValidationResult) (f : String) : Prop :=
  ∃ r, res = Except.ok r ∧ ∃ e ∈ r.errors, e.field = f

/-! ## Concrete payloads used by several claims -/

/-- A minimal structurally complete Tive payload with the numeric fields left
as parameters (device fields taken from the repository's test fixtures). -/
def basePayload (epoch c lat lon : ℚ) : JsVal :=
  .obj [("DeviceId", .str "123456789012345"),
        ("DeviceName", .str "Test Device"),
        ("EntryTimeEpoch", .num epoch),
        ("Temperature", .obj [("Celsius", .num c)]),
        ("Location", .obj [("Latitude", .num lat), ("Longitude", .num lon)])]

/-- The transformer unit-test fixture (`__tests__/transformers/
tive-to-paxafe.test.ts`, `sampleTivePayload`), with only the fields the
transformer reads. -/
def samplePayload : JsVal :=
  .obj [("EntryTimeEpoch", .num 1739215646000),
        ("Cellular", .obj [("Dbm", .num (-100))]),
        ("Temperature", .obj [("Celsius", .num 10.078125)]),
        ("Humidity", .obj [("Percentage", .num 38.7)]),
        ("Accelerometer", .obj [("G", .num 0.990186), ("X", .num (-0.5625)),
                                ("Y", .num (-0.4375)), ("Z", .num 0.6875)]),
        ("Light", .obj [("Lux", .num 0)]),
        ("Battery", .obj [("Percentage", .num 65)]),
        ("DeviceId", .str "863257063350583"),
        ("DeviceName", .str "A571992"),
        ("Location", .obj [("Latitude", .num 40.810562),
                           ("Longitude", .num (-73.879285)),
                           ("FormattedAddress", .str "114 Hunts Point Market, Bronx, NY 10474, USA"),
                           ("LocationMethod", .str "wifi"),
                           ("Accuracy", .obj [("Meters", .num 23)]),
                           ("WifiAccessPointUsedCount", .num 5)])]

/-- All external calls succeed; the dispatcher acknowledges with one event
id. -/
def effOk : Effects :=
  { storeInvalidOk := true, storePendingOk := true, orderCheckOk := true,
    updateLatestOk := true, inngestSend := .ok ["evt-1"],
    storeEventIdOk := true, storeFailedOk := true }

/-- Same, but the dispatcher rejects the `inngest.send` call. -/
def effDispatchFail : Effects :=
  { effOk with inngestSend := .error () }

/-- The empty stored state. -/
def db0 : Db := { rawPayloads := [], nextRawId := 0, deviceLatest := [], orderTracking := [] }

/-- A correctly authenticated request carrying the given body. -/
def reqWith (body : JsVal) : WebhookRequest :=
  { xApiKey := some "key", authorization := none, body := .ok body }

/-- `basePayload` with an `Accuracy.Meters` of exactly `0` added to the
location object. -/
def basePayloadAcc0 : JsVal :=
  .obj [("DeviceId", .str "123456789012345"),
        ("DeviceName", .str "Test Device"),
        ("EntryTimeEpoch", .num 1700000000000),
        ("Temperature", .obj [("Celsius", .num 10)]),
        ("Location", .obj [("Latitude", .num 40), ("Longitude", .num (-73)),
                           ("Accuracy", .obj [("Meters", .num 0)])])]

/-! ## Claims -/

/-- Claim C2 (code_bug evidence): on the repository's own transformer test
fixture the per-field precisions hold (temperature 2 decimals, humidity 1,
light 1, accelerometer 3), but the halfway cases round toward `+∞`, not
away from zero: accelerometer X = −0.5625 produces −0.562 (the repository's
test, like the claim, expects −0.563). -/
theorem C2_rounding_evaluated_on_test_fixture :
    (transformToSensorPayload samplePayload).map
      (fun r => (r.temperature, r.humidity, r.light_level, r.accelerometer)) =
      .ok (some 10.08, some 38.7, some 0,
           some ⟨some (-0.562), some (-0.437), some 0.688, some 0.99⟩) ∧
    (transformToSensorPayload samplePayload).map
      (fun r => r.accelerometer.map AccelerometerOut.x) ≠
      .ok (some (some (-0.563))) := by
  constructor
  · norm_num +decide [transformToSensorPayload, samplePayload, JsVal.get, JsVal.getOpt,
      lookupField, roundedNumField, JsVal.isNullish, JsVal.asNum, JsVal.truthy,
      roundToScale, jsMathRound, normalizeTimestamp, Except.map]
  · norm_num +decide [transformToSensorPayload, samplePayload, JsVal.get, JsVal.getOpt,
      lookupField, roundedNumField, JsVal.isNullish, JsVal.asNum, JsVal.truthy,
      roundToScale, jsMathRound, normalizeTimestamp, Except.map]

/-- Claim C9: the formatted address
`"114 Hunts Point Market, Bronx, NY 10474, USA"` parses into the expected
street/locality/state/postal-code/country components with `full_address`
preserved, and for every non-empty input string `full_address` is the input
verbatim. -/
theorem C9_parse_address :
    parseAddress (JsVal.str "114 Hunts Point Market, Bronx, NY 10474, USA") =
      .ok { street := some "114 Hunts Point Market", locality := some "Bronx",
            state := some "NY", country := some "USA", postal_code := some "10474",
            full_address := some "114 Hunts Point Market, Bronx, NY 10474, USA" } ∧
    ∀ s : String, s ≠ "" →
      (parseAddress (JsVal.str s)).map AddressOut.full_address = .ok (some s) := by
  constructor
  · decide
  · intro s hs
    simp [parseAddress, JsVal.truthy, hs, parseAddressStr, Except.map]

/-- Witness for the universally quantified part of `C9_parse_address`. -/
theorem C9_parse_address_witness :
    ("x" : String) ≠ "" ∧
    (parseAddress (JsVal.str "x")).map AddressOut.full_address = .ok (some "x") :=
  ⟨by decide, C9_parse_address.2 "x" (by decide)⟩

/-- Claim C10: whenever `Location.Accuracy.Meters` is exactly `0`, the
location transform classifies the accuracy category as `"High"` (the branch
tests nullishness) yet drops the numeric accuracy (that branch tests
truthiness, and `0` is falsy). -/
theorem C10_zero_accuracy_keeps_category_drops_value (tive : JsVal)
    (r : PaxafeLocationPayload)
    (h : transformToLocationPayload tive = .ok r)
    (hm : ((tive.get "Location").get "Accuracy").getOpt "Meters" = JsVal.num 0) :
    r.location_accuracy_category = some "High" ∧ r.location_accuracy = none := by
  simp only [transformToLocationPayload] at h
  rw [hm] at h
  norm_num [JsVal.isNullish, JsVal.asNum, JsVal.truthy] at h
  split_ifs at h <;>
    first
    | exact absurd h (by simp)
    | (rcases hpa : parseAddress ((tive.get "Location").get "FormattedAddress")
        with _ | address
       · rw [hpa] at h
         exact absurd h (by simp)
       · rw [hpa] at h
         simp only [Except.ok.injEq] at h
         subst h
         simp)

/-- Witness for `C10_zero_accuracy_keeps_category_drops_value` at a concrete
payload with a zero-meter accuracy reading. -/
theorem C10_zero_accuracy_witness :
    (((basePayloadAcc0.get "Location").get "Accuracy").getOpt "Meters" = JsVal.num 0) ∧
    ∃ r, transformToLocationPayload basePayloadAcc0 = .ok r ∧
      r.location_accuracy_category = some "High" ∧ r.location_accuracy = none := by
  refine ⟨rfl, ?_⟩
  rcases hr : transformToLocationPayload basePayloadAcc0 with u | r
  · cases u
    norm_num +decide [transformToLocationPayload, basePayloadAcc0, JsVal.get,
      JsVal.getOpt, lookupField, JsVal.isNullish, JsVal.asNum, JsVal.truthy,
      JsVal.typeof, parseAddress, roundedNumField, roundToScale, jsMathRound,
      normalizeTimestamp, nullCoalesce] at hr
    exact absurd hr (by simp)
  · exact ⟨r, rfl, C10_zero_accuracy_keeps_category_drops_value basePayloadAcc0 r hr rfl⟩

/-- Claim C4 counterexample: `validateTivePayload(null)` does not return a
result — its first statement `payload.DeviceId` raises a `TypeError`. -/
theorem C4_null_input_throws : validateTivePayload 0 JsVal.null = .error () := rfl

/-- Claim C4 (amended): for every input document other than
`null`/`undefined` — numbers, strings, booleans, and objects with missing or
wrongly-typed fields — the validator returns a result without throwing, and
`valid` is `false` exactly when the error list is non-empty. -/
theorem C4_validator_total_on_non_nullish (now : ℚ) (payload : JsVal)
    (h : payload.isNullish = false) :
    ∃ r, validateTivePayload now payload = .ok r ∧
      (r.valid = false ↔ r.errors ≠ []) := by
  simp only [validateTivePayload, h, Bool.false_eq_true, if_false]
  refine ⟨_, rfl, ?_⟩
  simp [beq_eq_false_iff_ne, List.length_eq_zero]

/-- Witness for `C4_validator_total_on_non_nullish` at the empty object. -/
theorem C4_validator_total_witness :
    (JsVal.obj []).isNullish = false ∧
    ∃ r, validateTivePayload 0 (JsVal.obj []) = .ok r ∧
      (r.valid = false ↔ r.errors ≠ []) :=
  ⟨rfl, C4_validator_total_on_non_nullish 0 (JsVal.obj []) rfl⟩

/-- Claim C6: a request with a missing or mismatched API key is answered
with 401 and nothing else happens — in particular the stored state (audit
log included) is returned unchanged. -/
theorem C6_unauthorized_no_processing (expectedApiKey : Option String) (now : ℚ)
    (eff : Effects) (req : WebhookRequest) (db : Db)
    (h : validateApiKey expectedApiKey req = false) :
    POST expectedApiKey now eff req db =
      ({ status := 401, error := some "Unauthorized", payload_id := none }, db) := by
  simp [POST, h]

/-- Witness for `C6_unauthorized_no_processing` with a wrong `X-Api-Key`. -/
theorem C6_unauthorized_witness :
    validateApiKey (some "secret")
      { xApiKey := some "wrong", authorization := none, body := .error () } = false ∧
    POST (some "secret") 0 effOk
      { xApiKey := some "wrong", authorization := none, body := .error () } db0 =
      ({ status := 401, error := some "Unauthorized", payload_id := none }, db0) :=
  ⟨by decide, C6_unauthorized_no_processing (some "secret") 0 effOk _ db0 (by decide)⟩

/-- Claim C1 (code_bug evidence): on the fully successful path — valid
payload, pending audit row stored, dispatcher acknowledging with an event
id — the handler records the dispatcher's event id by calling
`storeRawPayload` again, which is an `INSERT`: the call ends with two
RawPayload rows, not the claimed exactly one. -/
theorem C1_success_path_inserts_two_rows :
    ((POST (some "key") 1700000000000 effOk
        (reqWith (basePayload 1700000000000 10 40 (-73))) db0).1.status = 200) ∧
    ((POST (some "key") 1700000000000 effOk
        (reqWith (basePayload 1700000000000 10 40 (-73))) db0).2.rawPayloads.map
      (fun row => (row.id, row.status, row.inngestEventId))) =
      [(0, .pending, none), (1, .pending, some "evt-1")] ∧
    ((POST (some "key") 1700000000000 effOk
        (reqWith (basePayload 1700000000000 10 40 (-73))) db0).2.rawPayloads.length ≠ 1) := by
  refine ⟨?_, ?_, ?_⟩ <;>
  norm_num +decide [POST, effOk, effDispatchFail, db0, reqWith, validateApiKey, requestApiKey,
    jsOrStr, validateTivePayload, basePayload, deviceIdErrors, deviceNameErrors,
    entryTimeErrors, temperatureErrors, locationErrors, humidityErrors,
    batteryErrors, cellularErrors, JsVal.get, JsVal.getOpt, lookupField,
    JsVal.isNullish, JsVal.asNum, JsVal.asString, JsVal.truthy, JsVal.typeof,
    deviceIdFormatOk, MAX_TIMESTAMP_OFFSET, TEMP_MIN, TEMP_MAX, HUMIDITY_MIN,
    HUMIDITY_MAX, storeRawPayload, checkAndUpdatePayloadOrder,
    transformToSensorPayload, transformToLocationPayload, roundedNumField,
    roundToScale, jsMathRound, normalizeTimestamp, parseAddress, jsValEq,
    upsertDeviceLatest, deviceLatestRowOf, nullCoalesce, Except.map]

/-- Claim C5 (code_bug evidence): when dispatch fails on a structurally
valid payload the endpoint does return 503, but the audit row created for
the call (id 0, the one reported in the response) keeps status `pending`;
a second, separate row with status `failed` is inserted instead of marking
the first one failed. -/
theorem C5_dispatch_failure_leaves_audit_row_pending :
    ((POST (some "key") 1700000000000 effDispatchFail
        (reqWith (basePayload 1700000000000 10 40 (-73))) db0).1.status = 503) ∧
    ((POST (some "key") 1700000000000 effDispatchFail
        (reqWith (basePayload 1700000000000 10 40 (-73))) db0).1.payload_id = some 0) ∧
    ((POST (some "key") 1700000000000 effDispatchFail
        (reqWith (basePayload 1700000000000 10 40 (-73))) db0).2.rawPayloads.map
      (fun row => (row.id, row.status))) = [(0, .pending), (1, .failed)] := by
  refine ⟨?_, ?_, ?_⟩ <;>
  norm_num +decide [POST, effOk, effDispatchFail, db0, reqWith, validateApiKey, requestApiKey,
    jsOrStr, validateTivePayload, basePayload, deviceIdErrors, deviceNameErrors,
    entryTimeErrors, temperatureErrors, locationErrors, humidityErrors,
    batteryErrors, cellularErrors, JsVal.get, JsVal.getOpt, lookupField,
    JsVal.isNullish, JsVal.asNum, JsVal.asString, JsVal.truthy, JsVal.typeof,
    deviceIdFormatOk, MAX_TIMESTAMP_OFFSET, TEMP_MIN, TEMP_MAX, HUMIDITY_MIN,
    HUMIDITY_MAX, storeRawPayload, checkAndUpdatePayloadOrder,
    transformToSensorPayload, transformToLocationPayload, roundedNumField,
    roundToScale, jsMathRound, normalizeTimestamp, parseAddress, jsValEq,
    upsertDeviceLatest, deviceLatestRowOf, nullCoalesce, Except.map]

/-- Claim C3 (code_bug evidence): for a valid payload with
`EntryTimeEpoch = 1700000000` (seconds, below 1e12) the two reading
transforms both normalize the timestamp to `1700000000000` ms, but the
accepted webhook call writes the raw `EntryTimeEpoch` — not the normalized
value — as the latest-state projection's `last_ts`. -/
theorem C3_latest_state_timestamp_not_normalized :
    ((transformToSensorPayload (basePayload 1700000000 10 40 (-73))).map
      (fun r => r.timestamp) = .ok 1700000000000) ∧
    ((transformToLocationPayload (basePayload 1700000000 10 40 (-73))).map
      (fun r => r.timestamp) = .ok 1700000000000) ∧
    ((POST (some "key") 1700000000 effOk
        (reqWith (basePayload 1700000000 10 40 (-73))) db0).1.status = 200) ∧
    ((POST (some "key") 1700000000 effOk
        (reqWith (basePayload 1700000000 10 40 (-73))) db0).2.deviceLatest.map
      (fun r => r.last_ts) = [1700000000]) ∧
    ((1700000000 : ℚ) ≠ 1700000000000) := by
  refine ⟨?_, ?_, ?_, ?_, ?_⟩ <;>
  norm_num +decide [POST, effOk, effDispatchFail, db0, reqWith, validateApiKey, requestApiKey,
    jsOrStr, validateTivePayload, basePayload, deviceIdErrors, deviceNameErrors,
    entryTimeErrors, temperatureErrors, locationErrors, humidityErrors,
    batteryErrors, cellularErrors, JsVal.get, JsVal.getOpt, lookupField,
    JsVal.isNullish, JsVal.asNum, JsVal.asString, JsVal.truthy, JsVal.typeof,
    deviceIdFormatOk, MAX_TIMESTAMP_OFFSET, TEMP_MIN, TEMP_MAX, HUMIDITY_MIN,
    HUMIDITY_MAX, storeRawPayload, checkAndUpdatePayloadOrder,
    transformToSensorPayload, transformToLocationPayload, roundedNumField,
    roundToScale, jsMathRound, normalizeTimestamp, parseAddress, jsValEq,
    upsertDeviceLatest, deviceLatestRowOf, nullCoalesce, Except.map]

/-- Temperature component of the validator on a numeric Celsius value:
exactly the inclusive-range check remains. -/
lemma temperatureErrors_on_num (c : ℚ) :
    temperatureErrors (JsVal.obj [("Celsius", JsVal.num c)]) =
      if c < -100 ∨ c > 100 then
        [⟨"Temperature.Celsius",
          "Temperature.Celsius is outside reasonable range (-100 to 100)"⟩]
      else [] := by
  norm_num +decide [temperatureErrors, JsVal.truthy, JsVal.typeof, JsVal.get,
    lookupField, JsVal.isNullish, JsVal.asNum, TEMP_MIN, TEMP_MAX]

/-- Location component of the validator on numeric latitude/longitude:
exactly the two inclusive-range checks remain, in order. -/
lemma locationErrors_on_num (lat lon : ℚ) :
    locationErrors (JsVal.obj [("Latitude", JsVal.num lat), ("Longitude", JsVal.num lon)]) =
      (if lat < -90 ∨ lat > 90 then
        [⟨"Location.Latitude", "Latitude must be between -90 and 90"⟩]
      else []) ++
      (if lon < -180 ∨ lon > 180 then
        [⟨"Location.Longitude", "Longitude must be between -180 and 180"⟩]
      else []) := by
  norm_num +decide [locationErrors, JsVal.truthy, JsVal.typeof, JsVal.get,
    lookupField, JsVal.isNullish, JsVal.asNum]

/-- On the `basePayload` family all components except temperature and
location validate cleanly, so the validator's outcome is exactly those two
components' errors. -/
lemma validate_basePayload_eq (c lat lon : ℚ) :
    validateTivePayload 1700000000000 (basePayload 1700000000000 c lat lon) =
      .ok { valid :=
              (temperatureErrors (JsVal.obj [("Celsius", JsVal.num c)]) ++
               locationErrors (JsVal.obj [("Latitude", JsVal.num lat),
                                          ("Longitude", JsVal.num lon)])).length == 0,
            errors :=
              temperatureErrors (JsVal.obj [("Celsius", JsVal.num c)]) ++
              locationErrors (JsVal.obj [("Latitude", JsVal.num lat),
                                         ("Longitude", JsVal.num lon)]) } := by
  norm_num +decide [validateTivePayload, basePayload, deviceIdErrors,
    deviceNameErrors, entryTimeErrors, humidityErrors, batteryErrors,
    cellularErrors, JsVal.get, JsVal.getOpt, lookupField, JsVal.isNullish,
    JsVal.asNum, JsVal.asString, JsVal.truthy, JsVal.typeof, deviceIdFormatOk,
    MAX_TIMESTAMP_OFFSET]

/-- Claim C7: range validation is boundary-inclusive — on a structurally
valid payload the `Temperature.Celsius` error appears exactly when Celsius
leaves `[-100, 100]`, the `Location.Latitude` error exactly when latitude
leaves `[-90, 90]`, the `Location.Longitude` error exactly when longitude
leaves `[-180, 180]`, and the payload is valid exactly when all three lie in
range (so the boundary values −100, 100, ±90, ±180 pass and −100.01,
100.01, ±90.0001, ±180.0001 fail). -/
theorem C7_range_validation_boundary_inclusive (c lat lon : ℚ) :
    (hasFieldError (validateTivePayload 1700000000000
        (basePayload 1700000000000 c lat lon)) "Temperature.Celsius" ↔
      (c < -100 ∨ 100 < c)) ∧
    (hasFieldError (validateTivePayload 1700000000000
        (basePayload 1700000000000 c lat lon)) "Location.Latitude" ↔
      (lat < -90 ∨ 90 < lat)) ∧
    (hasFieldError (validateTivePayload 1700000000000
        (basePayload 1700000000000 c lat lon)) "Location.Longitude" ↔
      (lon < -180 ∨ 180 < lon)) ∧
    ((validateTivePayload 1700000000000
        (basePayload 1700000000000 c lat lon)).map ValidationResult.valid = .ok true ↔
      ((-100 ≤ c ∧ c ≤ 100) ∧ (-90 ≤ lat ∧ lat ≤ 90) ∧ (-180 ≤ lon ∧ lon ≤ 180))) := by
  have key := validate_basePayload_eq c lat lon
  rw [temperatureErrors_on_num, locationErrors_on_num] at key
  refine ⟨?_, ?_, ?_, ?_⟩ <;> rw [key]
  · simp only [hasFieldError, Except.ok.injEq, exists_eq_left]
    split_ifs with h1 h2 h3 <;> simp_all
  · simp only [hasFieldError, Except.ok.injEq, exists_eq_left]
    split_ifs with h1 h2 h3 <;> simp_all
  · simp only [hasFieldError, Except.ok.injEq, exists_eq_left]
    split_ifs with h1 h2 h3 <;> simp_all
  · simp [Except.map, List.length_eq_zero, List.append_eq_nil, ite_eq_right_iff,
      not_or, not_lt]

/-- A five-way concatenation is non-empty iff one part is. -/
lemma append5_ne_nil {α : Type} (l1 l2 l3 l4 l5 : List α) :
    l1 ++ l2 ++ l3 ++ l4 ++ l5 ≠ [] ↔
      l1 ≠ [] ∨ l2 ≠ [] ∨ l3 ≠ [] ∨ l4 ≠ [] ∨ l5 ≠ [] := by
  simp [List.append_eq_nil]
  tauto

/-- The comparison `Math.sqrt(x² + y² + z²) > 2` computed by the classifier
is equivalent to the squared comparison the executable embedding uses. -/
lemma sqrt_magnitude_gt_two_iff (x y z : ℚ) :
    ((2 : ℝ) < Real.sqrt ((x : ℝ) ^ 2 + (y : ℝ) ^ 2 + (z : ℝ) ^ 2)) ↔
      ((4 : ℚ) < x ^ 2 + y ^ 2 + z ^ 2) := by
  rw [Real.lt_sqrt (by norm_num)]
  constructor <;> intro h <;> [exact_mod_cast (by norm_num at h ⊢; exact_mod_cast h : (4:ℝ) < (x:ℝ)^2+(y:ℝ)^2+(z:ℝ)^2) ; skip]
  norm_num
  exact_mod_cast h

lemma tempReasons_ne_nil_iff (p : JsVal) :
    tempReasons p ≠ [] ↔
      ∃ t, monitoredTemp p = some t ∧ (t < OP_TEMP_MIN ∨ OP_TEMP_MAX < t) := by
  by_cases hc : ((p.get "Temperature").getOpt "Celsius").isNullish <;>
    simp only [tempReasons, monitoredTemp, hc, Bool.not_true, Bool.not_false,
      if_true, if_false, Bool.true_eq_false, Bool.false_eq_true] <;>
    [simp; skip] <;> split_ifs <;> simp_all <;> tauto

lemma humidityReasons_ne_nil_iff (p : JsVal) :
    humidityReasons p ≠ [] ↔
      ∃ h, monitoredHumidity p = some h ∧ (h < OP_HUMIDITY_MIN ∨ OP_HUMIDITY_MAX < h) := by
  by_cases hc : ((p.get "Humidity").getOpt "Percentage").isNullish <;>
    simp only [humidityReasons, monitoredHumidity, hc, Bool.not_true, Bool.not_false,
      if_true, if_false, Bool.true_eq_false, Bool.false_eq_true] <;>
    [simp; skip] <;> split_ifs <;> simp_all <;> tauto

lemma batteryReasons_ne_nil_iff (p : JsVal) :
    batteryReasons p ≠ [] ↔
      ∃ b, monitoredBattery p = some b ∧ b < OP_BATTERY_MIN := by
  by_cases hc : ((p.get "Battery").getOpt "Percentage").isNullish <;>
    simp only [batteryReasons, monitoredBattery, hc, Bool.not_true, Bool.not_false,
      if_true, if_false, Bool.true_eq_false, Bool.false_eq_true] <;>
    [simp; skip] <;> split_ifs <;> simp_all

lemma cellularReasons_ne_nil_iff (p : JsVal) :
    cellularReasons p ≠ [] ↔
      ∃ d, monitoredCellular p = some d ∧ d < OP_CELLULAR_DBM_MIN := by
  by_cases hc : ((p.get "Cellular").getOpt "Dbm").isNullish <;>
    simp only [cellularReasons, monitoredCellular, hc, Bool.not_true, Bool.not_false,
      if_true, if_false, Bool.true_eq_false, Bool.false_eq_true] <;>
    [simp; skip] <;> split_ifs <;> simp_all

lemma accelReasons_ne_nil_iff (p : JsVal) :
    accelReasons p ≠ [] ↔
      ((p.get "Accelerometer").truthy = true ∧
        ((∃ x y z : ℚ, accelAxes p = some (x, y, z) ∧
            (2 : ℝ) < Real.sqrt ((x : ℝ) ^ 2 + (y : ℝ) ^ 2 + (z : ℝ) ^ 2)) ∨
         (accelAxes p = none ∧
            ∃ g, accelScalarG p = some g ∧ OP_ACCEL_MAGNITUDE_MAX < g))) := by
  by_cases ha : (p.get "Accelerometer").truthy
  · simp only [accelReasons, accelAxes, accelScalarG, ha, if_true]
    cases hx : ((p.get "Accelerometer").get "X").asNumOpt <;>
      cases hy : ((p.get "Accelerometer").get "Y").asNumOpt <;>
        cases hz : ((p.get "Accelerometer").get "Z").asNumOpt <;>
          simp_all [OP_ACCEL_MAGNITUDE_MAX, sqrt_magnitude_gt_two_iff] <;>
          (try cases hg : ((p.get "Accelerometer").get "G").asNumOpt) <;>
          (try simp_all) <;> (try split_ifs) <;> (try simp_all)
    all_goals
      norm_num
    all_goals
      constructor
      · intro h
        exact ⟨_, _, _, ⟨rfl, rfl, rfl⟩, h⟩
      · rintro ⟨x, y, z, ⟨rfl, rfl, rfl⟩, h⟩
        exact h
  · simp [accelReasons, ha]

/-- Claim C8: the classifier reports `isCritical = true` exactly when some
present monitored value is outside its fixed operating range (temperature
outside −20..30 °C, humidity outside 20..80 %, battery below 20 %, cellular
below −120 dBm, accelerometer magnitude — the Euclidean norm of the three
axes when all are numeric, else the device-reported scalar `G` — above
2.0 g); absent fields are skipped, `isCritical = false` exactly when the
reason list is empty, and the reasons are exactly the concatenation of the
five checks' contributions (one reason per violated check). -/
theorem C8_critical_classifier (p : JsVal) (r : CriticalEventResult)
    (h : isCriticalEvent p = .ok r) :
    (r.isCritical = true ↔ criticalSpec p) ∧
    (r.isCritical = false ↔ r.reasons = []) ∧
    r.reasons = tempReasons p ++ humidityReasons p ++ batteryReasons p ++
      cellularReasons p ++ accelReasons p := by
  simp only [isCriticalEvent] at h
  split_ifs at h with hn
  simp only [Except.ok.injEq] at h
  subst h
  refine ⟨?_, ?_, rfl⟩
  · simp only [decide_eq_true_eq, criticalSpec]
    rw [gt_iff_lt, List.length_pos, append5_ne_nil]
    exact or_congr (tempReasons_ne_nil_iff p) (or_congr (humidityReasons_ne_nil_iff p)
      (or_congr (batteryReasons_ne_nil_iff p) (or_congr (cellularReasons_ne_nil_iff p)
        (accelReasons_ne_nil_iff p))))
  · simp [List.length_eq_zero]

/-- Witness for `C8_critical_classifier` at the empty object (all monitored
fields absent): not critical, empty reason list. -/
theorem C8_critical_classifier_witness :
    ((⟨false, []⟩ : CriticalEventResult).isCritical = true ↔
      criticalSpec (JsVal.obj [])) ∧
    ((⟨false, []⟩ : CriticalEventResult).isCritical = false ↔
      (⟨false, []⟩ : CriticalEventResult).reasons = []) ∧
    (⟨false, []⟩ : CriticalEventResult).reasons =
      tempReasons (JsVal.obj []) ++ humidityReasons (JsVal.obj []) ++
      batteryReasons (JsVal.obj []) ++ cellularReasons (JsVal.obj []) ++
      accelReasons (JsVal.obj []) :=
  C8_critical_classifier (JsVal.obj []) ⟨false, []⟩ rfl

end Tive
